import Mathlib

/-! Verification of the multipart-upload subsystem of the
`webflow-cloud-object-storage` repository.

The file shallowly embeds, in Lean, the client-side Chunk Planner/Uploader
(`uploadFileMultipart` / `uploadFileSimple` in the React component) and the
server-side Multipart Session Coordinator (the `POST`/`PUT`/`DELETE` routes of
the multipart-upload API file), together with the simple-upload route.
Definitions mirror the TypeScript source; theorems settle the specification's
claims about them.
-/

namespace WebflowStorage

/-! Section: chunk planning (client, `uploadFileMultipart`)

`const CHUNK_SIZE = 5 * 1024 * 1024` and
`const totalParts = Math.ceil(file.size / CHUNK_SIZE)`.
For part index `i`: `start = CHUNK_SIZE * i`,
`end = Math.min(file.size, start + CHUNK_SIZE)`, `blob = file.slice(start, end)`.
-/

def CHUNK_SIZE : Nat := 5 * 1024 * 1024

/-- JS `Math.ceil(size / CHUNK_SIZE)` on natural sizes. -/
def totalParts (size : Nat) : Nat := (size + CHUNK_SIZE - 1) / CHUNK_SIZE

/-- Start offset of part index `i` (0-based): `CHUNK_SIZE * i`. -/
def partStart (i : Nat) : Nat := CHUNK_SIZE * i

/-- End offset of part index `i`: `Math.min(file.size, start + CHUNK_SIZE)`. -/
def partEnd (size i : Nat) : Nat := min size (CHUNK_SIZE * i + CHUNK_SIZE)

/-- Byte length of the blob `file.slice(start, end)` for part index `i`. -/
def partLen (size i : Nat) : Nat := partEnd size i - partStart i

/-- The list of part byte lengths of the chunk plan. -/
def partLens (size : Nat) : List Nat :=
  (List.range (totalParts size)).map (partLen size)

/-- The in-loop validation
`if (!isLastPart && blob.size < CHUNK_SIZE) throw ...`:
`true` iff some non-final part is shorter than `CHUNK_SIZE`. -/
def planValidationFires (size : Nat) : Bool :=
  (List.range (totalParts size)).any
    (fun i => decide (i + 1 ≠ totalParts size) && decide (partLen size i < CHUNK_SIZE))

/-! Section: per-part retry loop (client, `uploadFileMultipart`, phase 2)

```
let retries = 3;
while (retries > 0) {
  try {
    uploadPartResponse = await fetch(...);
    if (uploadPartResponse.ok) break;
    if (uploadPartResponse.status === 413) throw new Error(...);
    if (status !== 408 && status !== 429 && status < 500) throw new Error(...);
    retries--;
    if (retries > 0) await sleep(1000 * (4 - retries));
  } catch (error) {
    retries--;
    if (retries === 0) throw new Error(`Failed to upload part ... after retries`);
    await sleep(1000 * (4 - retries));
  }
}
if (!uploadPartResponse || !uploadPartResponse.ok) throw ...;
```

The `throw` statements for 413 and for terminal 4xx statuses sit inside the
`try` block and are therefore caught by the `catch` clause of the same loop
iteration, which decrements `retries` and sleeps exactly as for a retryable
failure.
-/

/-- What one `fetch` of a part attempt produces: a network-level exception
(`thrown`) or an HTTP response with a status code. -/
inductive AttemptOutcome where
  | thrown
  | status (code : Nat)
deriving DecidableEq

/-- Observable result of the per-part `while (retries > 0)` loop:
whether it exited with an ok response, how many `fetch` calls it made, and
the sleep durations (ms) it awaited, in order. -/
structure PartLoopRun where
  succeeded : Bool
  attempts : Nat
  sleeps : List Nat
deriving DecidableEq

/-- The loop body, recursing on the current value of `retries`; `attempts`
counts `fetch` calls already made (so `outcome attempts` is the next fetch's
outcome) and `sleeps` accumulates backoff waits. -/
def runPartLoop (outcome : Nat → AttemptOutcome) :
    Nat → Nat → List Nat → PartLoopRun
  | 0, attempts, sleeps => ⟨false, attempts, sleeps⟩
  | r + 1, attempts, sleeps =>
    match outcome attempts with
    | .thrown =>
      if r = 0 then ⟨false, attempts + 1, sleeps⟩
      else runPartLoop outcome r (attempts + 1) (sleeps ++ [1000 * (4 - r)])
    | .status c =>
      if 200 ≤ c ∧ c < 300 then ⟨true, attempts + 1, sleeps⟩
      else if c = 413 then
        (if r = 0 then ⟨false, attempts + 1, sleeps⟩
         else runPartLoop outcome r (attempts + 1) (sleeps ++ [1000 * (4 - r)]))
      else if c ≠ 408 ∧ c ≠ 429 ∧ c < 500 then
        (if r = 0 then ⟨false, attempts + 1, sleeps⟩
         else runPartLoop outcome r (attempts + 1) (sleeps ++ [1000 * (4 - r)]))
      else
        (if r = 0 then ⟨false, attempts + 1, sleeps⟩
         else runPartLoop outcome r (attempts + 1) (sleeps ++ [1000 * (4 - r)]))

/-- One element of `partsData`: `{ partNumber: i + 1, etag: uploadPartJson.etag }`. -/
structure PartData where
  partNumber : Nat
  etag : String
deriving DecidableEq

/-- Phase-2 `for` loop starting at part index `i` with `rem` parts left.
`outcome p a` is the result of fetch attempt `a` for part index `p`;
`etagOf k` is the etag the backend returns for part number `k`; `sid` is the
string placed in the `uploadId` query parameter. Returns the list of
`(partNumber, uploadId)` pairs of all part fetches issued, and
`some partsData` on success or `none` when a part exhausts its retries. -/
def runUploadPartsFrom (outcome : Nat → Nat → AttemptOutcome) (etagOf : Nat → String)
    (sid : String) : Nat → Nat → List (Nat × String) × Option (List PartData)
  | _, 0 => ([], some [])
  | i, rem + 1 =>
    let run := runPartLoop (outcome i) 3 0 []
    let tr := List.replicate run.attempts (i + 1, sid)
    if run.succeeded then
      let rest := runUploadPartsFrom outcome etagOf sid (i + 1) rem
      (tr ++ rest.1,
        match rest.2 with
        | some l => some (⟨i + 1, etagOf (i + 1)⟩ :: l)
        | none => none)
    else (tr, none)

/-- The whole phase-2 loop over all `totalParts` parts. -/
def runUploadParts (outcome : Nat → Nat → AttemptOutcome) (etagOf : Nat → String)
    (sid : String) (n : Nat) : List (Nat × String) × Option (List PartData) :=
  runUploadPartsFrom outcome etagOf sid 0 n

/-! Section: create phase and full multipart pipeline (client)

```
const createResponse = await fetch(createUploadUrl, {...});
const createJson = (await createResponse.json()) as { uploadId: string };
const uploadId = createJson.uploadId;
```

`createResponse.ok` is never consulted; if the JSON body carries no
`uploadId` field, `uploadId` is `undefined`, and
`uploadPartUrl.searchParams.set("uploadId", uploadId)` stringifies it to
`"undefined"`.
-/

/-- The create response as the client observes it: its HTTP ok flag and the
`uploadId` field of its JSON body (`none` when the field is absent). -/
structure CreateOutcome where
  ok : Bool
  bodyUploadId : Option String

/-- Stringification performed by `URLSearchParams.set` on a possibly-undefined value. -/
def uploadIdParam : Option String → String
  | some s => s
  | none => "undefined"

/-- Behaviour of `uploadFileMultipart` from the size check onward, observable 1: whether
the run is routed to `uploadFileSimple` (`file.size < CHUNK_SIZE`). -/
def multipartRoutedToSimple (size : Nat) : Bool := size < CHUNK_SIZE

/-- Observable 2: how many create calls the run makes — one, whenever the
run is not routed away; the create response is never consulted, so this does
not depend on it. -/
def multipartCreateCalls (size : Nat) : Nat :=
  if size < CHUNK_SIZE then 0 else 1

/-- Observable 3: the `(partNumber, uploadId)` pairs of every phase-2
upload-part fetch the run issues. The uploadId sent is the stringified
`createJson.uploadId` — `"undefined"` when the create body had none, since
`createResponse.ok` is never checked. -/
def multipartPartFetches (size : Nat) (c : CreateOutcome)
    (outcome : Nat → Nat → AttemptOutcome) (etagOf : Nat → String) :
    List (Nat × String) :=
  if size < CHUNK_SIZE then []
  else (runUploadParts outcome etagOf (uploadIdParam c.bodyUploadId) (totalParts size)).1

/-- Observable 4: the `partsData` list the run submits at completion
(`none` when the upload fails or is routed away). -/
def multipartCompleted (size : Nat) (c : CreateOutcome)
    (outcome : Nat → Nat → AttemptOutcome) (etagOf : Nat → String) :
    Option (List PartData) :=
  if size < CHUNK_SIZE then none
  else (runUploadParts outcome etagOf (uploadIdParam c.bodyUploadId) (totalParts size)).2

/-! Section: dispatch between the simple and multipart paths (client)

`uploadFileSimple` forwards to `uploadFileMultipart` when
`file.size > FILE_SIZE_THRESHOLD` (1 MiB); `uploadFileMultipart` forwards to
`uploadFileSimple` when `file.size < CHUNK_SIZE` (5 MiB).
-/

def FILE_SIZE_THRESHOLD : Nat := 1 * 1024 * 1024

inductive UploadPath where
  | simple
  | multipart
deriving DecidableEq

/-- The forwarding check at the top of each upload function: `some q` when
the function immediately hands the file to the other path, `none` when it
proceeds with its own upload logic. -/
def dispatchStep : UploadPath → Nat → Option UploadPath
  | .simple, size => if FILE_SIZE_THRESHOLD < size then some .multipart else none
  | .multipart, size => if size < CHUNK_SIZE then some .simple else none

/-- Iterate the mutual forwarding up to `fuel` hops; `some p` is the path that
finally proceeds with an upload, `none` means the hand-off never settled. -/
def dispatchRun : Nat → UploadPath → Nat → Option UploadPath
  | 0, _, _ => none
  | fuel + 1, p, size =>
    match dispatchStep p size with
    | none => some p
    | some q => dispatchRun fuel q size

/-! Section: server-side Coordinator (multipart-upload API route)

The `POST` / `PUT` / `DELETE` handlers. Bucket interactions are recorded as a
trace; backend outcomes (whether a bucket primitive succeeds) are parameters.
-/

/-- A call into the storage bucket's multipart primitives. -/
inductive BucketCall where
  | createUpload (key : String)
  | resumeUploadPart (key uploadId : String) (partNumber : Int)
  | resumeComplete (key uploadId : String)
  | resumeAbort (key uploadId : String)
deriving DecidableEq

/-- An HTTP status plus the bucket calls the handler made. -/
structure HandlerResult where
  status : Nat
  calls : List BucketCall
deriving DecidableEq

/-- JavaScript string falsiness of a `string | null` value:
`null` and `""` are falsy. -/
def strFalsy : Option String → Bool
  | none => true
  | some s => s = ""

/-- JS `a || b` on `string | null` values. -/
def jsOr (a b : Option String) : Option String :=
  if strFalsy a then b else a

/-- Whether the second list starts with the first. -/
def startsWithSeq : List Char → List Char → Bool
  | [], _ => true
  | _ :: _, [] => false
  | a :: as, b :: bs => (a = b) && startsWithSeq as bs

/-- Whether the needle occurs contiguously in the haystack. -/
def containsSeq (needle : List Char) : List Char → Bool
  | [] => needle.isEmpty
  | c :: rest => startsWithSeq needle (c :: rest) || containsSeq needle rest

/-- JS `haystack.includes(needle)`. -/
def includesSub (haystack needle : String) : Bool :=
  containsSeq needle.toList haystack.toList

/-- The ECMAScript WhiteSpace and LineTerminator code points, as skipped by
`String.prototype.trim` and `parseInt`: TAB, LF, VT, FF, CR, SPACE, NBSP,
OGHAM SPACE MARK, the U+2000–U+200A spaces, LINE/PARAGRAPH SEPARATOR, NARROW
NO-BREAK SPACE, MEDIUM MATHEMATICAL SPACE, IDEOGRAPHIC SPACE, and ZWNBSP. -/
def isJsWhitespace (c : Char) : Bool :=
  c.toNat = 0x09 || c.toNat = 0x0A || c.toNat = 0x0B || c.toNat = 0x0C ||
  c.toNat = 0x0D || c.toNat = 0x20 || c.toNat = 0xA0 || c.toNat = 0x1680 ||
  (decide (0x2000 ≤ c.toNat) && decide (c.toNat ≤ 0x200A)) ||
  c.toNat = 0x2028 || c.toNat = 0x2029 || c.toNat = 0x202F ||
  c.toNat = 0x205F || c.toNat = 0x3000 || c.toNat = 0xFEFF

/-- JavaScript `s.trim()`: strip leading and trailing ECMAScript
whitespace. -/
def jsTrim (s : String) : String :=
  String.mk
    (((s.toList.dropWhile isJsWhitespace).reverse.dropWhile isJsWhitespace).reverse)

def digitsToNat : List Char → Nat → Nat
  | [], acc => acc
  | c :: cs, acc => digitsToNat cs (acc * 10 + (c.toNat - 48))

/-- Value of a hexadecimal digit, `none` for any other character. -/
def hexDigitVal (c : Char) : Option Nat :=
  if 48 ≤ c.toNat ∧ c.toNat ≤ 57 then some (c.toNat - 48)
  else if 97 ≤ c.toNat ∧ c.toNat ≤ 102 then some (c.toNat - 87)
  else if 65 ≤ c.toNat ∧ c.toNat ≤ 70 then some (c.toNat - 55)
  else none

def isHexDigit (c : Char) : Bool := (hexDigitVal c).isSome

def hexToNat : List Char → Nat → Nat
  | [], acc => acc
  | c :: cs, acc => hexToNat cs (acc * 16 + (hexDigitVal c).getD 0)

/-- JavaScript `parseInt(s)` with no radix argument: trim whitespace, an
optional sign, then — when the remainder starts with `0x` or `0X` — the
maximal hexadecimal-digit prefix read in base 16, otherwise the maximal
decimal-digit prefix read in base 10; `none` models `NaN` (no digits). -/
def jsParseInt (s : String) : Option Int :=
  let cs := (jsTrim s).toList
  let signRest : Bool × List Char :=
    match cs with
    | '-' :: rest => (true, rest)
    | '+' :: rest => (false, rest)
    | _ => (false, cs)
  let neg := signRest.1
  let mag : Option Nat :=
    match signRest.2 with
    | '0' :: x :: r2 =>
      if x = 'x' ∨ x = 'X' then
        let ds := r2.takeWhile isHexDigit
        if ds.isEmpty then none else some (hexToNat ds 0)
      else
        let ds := signRest.2.takeWhile Char.isDigit
        if ds.isEmpty then none else some (digitsToNat ds 0)
    | _ =>
      let ds := signRest.2.takeWhile Char.isDigit
      if ds.isEmpty then none else some (digitsToNat ds 0)
  match mag with
  | none => none
  | some n => some (if neg then -(Int.ofNat n) else Int.ofNat n)

/-- An upload-part request as `handleUploadPart` observes it. -/
structure UploadPartRequest where
  authenticated : Bool
  bucketConfigured : Bool
  action : Option String
  queryUploadId : Option String
  queryPartNumber : Option String
  queryKey : Option String
  contentTypeHeader : String
  formUploadId : Option String
  formPartNumber : Option String
  formKey : Option String
  hasBody : Bool

/-- Parameter extraction of `handleUploadPart`: query parameters first; only
when one of the three is missing/empty is the body consulted, and then only
for `multipart/form-data` bodies (the `application/json` branch reads
nothing), each parameter individually falling back via `||`. -/
def extractUploadPartParams (r : UploadPartRequest) :
    Option String × Option String × Option String :=
  let u := r.queryUploadId
  let p := r.queryPartNumber
  let k := r.queryKey
  if strFalsy u || strFalsy p || strFalsy k then
    if includesSub r.contentTypeHeader "application/json" then
      (u, p, k)
    else if includesSub r.contentTypeHeader "multipart/form-data" then
      (jsOr u r.formUploadId, jsOr p r.formPartNumber, jsOr k r.formKey)
    else
      (u, p, k)
  else
    (u, p, k)

/-- Handler `handleUploadPart` (shared by `PUT` and `POST ?action=upload-part`):
auth check, bucket check, action check, parameter extraction, `parseInt`
validation, body presence, then `resumeMultipartUpload(key, uploadId)` and
`uploadPart(partNumber, arrayBuffer)`; a backend rejection surfaces as 400. -/
def handleUploadPartModel (r : UploadPartRequest) (backendOk : Bool) : HandlerResult :=
  if !r.authenticated then ⟨401, []⟩
  else if !r.bucketConfigured then ⟨500, []⟩
  else if r.action ≠ some "upload-part" then ⟨400, []⟩
  else
    let upk := extractUploadPartParams r
    if strFalsy upk.1 || strFalsy upk.2.1 || strFalsy upk.2.2 then ⟨400, []⟩
    else
      match jsParseInt (upk.2.1.getD "") with
      | none => ⟨400, []⟩
      | some n =>
        if n < 1 then ⟨400, []⟩
        else if !r.hasBody then ⟨400, []⟩
        else
          let call := BucketCall.resumeUploadPart (upk.2.2.getD "") (upk.1.getD "") n
          if backendOk then ⟨200, [call]⟩ else ⟨400, [call]⟩

/-- An abort (`DELETE`) request as the handler observes it. The
`authenticated` field records whether the caller is authenticated; the
source `DELETE` handler never consults it (it performs no
`isAuthenticated` check). -/
structure AbortRequest where
  authenticated : Bool
  bucketConfigured : Bool
  action : Option String
  uploadId : Option String
  key : Option String

/-- The `DELETE` handler: bucket check, `action !== "abort"` check, parameter
presence check, then `resumeMultipartUpload(key, uploadId)` and `abort()`;
a backend rejection surfaces as 400. No authentication check is performed. -/
def deleteHandlerModel (r : AbortRequest) (abortSucceeds : Bool) : HandlerResult :=
  if !r.bucketConfigured then ⟨500, []⟩
  else if r.action ≠ some "abort" then ⟨400, []⟩
  else if strFalsy r.uploadId || strFalsy r.key then ⟨400, []⟩
  else
    let call := BucketCall.resumeAbort (r.key.getD "") (r.uploadId.getD "")
    if abortSucceeds then ⟨200, [call]⟩ else ⟨400, [call]⟩

/-! Section: server-side simple upload (`POST /api/upload`)

The handler normalizes the folder path, computes the destination key, and
calls `bucket.put(filename, file, { httpMetadata: { contentType } })`
unconditionally — the source comment reads "this will replace existing file
if key already exists". The bucket is modelled as a map from keys to
optional stored objects; `put` is a pointwise update.
-/

/-- The uploaded `File` as consumed by the handler. -/
structure UFile where
  name : String
  content : String
  ctype : String

/-- A stored bucket object. -/
structure RObject where
  data : String
  contentType : String
deriving DecidableEq

/-- A simple-upload request as the handler observes it. -/
structure UploadRequest where
  authenticated : Bool
  bucketConfigured : Bool
  file : Option UFile
  customKey : Option String
  folderPath : Option String

/-- Regex replace `/\/+/g` with `"/"`: collapse runs of slashes; the flag records
whether the previous character was a slash. -/
def collapseSlashesAux : Bool → List Char → List Char
  | _, [] => []
  | prevSlash, c :: rest =>
    if c = '/' then
      if prevSlash then collapseSlashesAux true rest
      else '/' :: collapseSlashesAux true rest
    else c :: collapseSlashesAux false rest

/-- Regex replace `/^\/+|\/+$/g` with `""`: strip leading and trailing slash runs. -/
def stripEdgeSlashes (s : String) : String :=
  let cs := s.toList.dropWhile (· = '/')
  String.mk ((cs.reverse.dropWhile (· = '/')).reverse)

/-- The folder normalization of the upload handler:
`folderPath.trim().replace(/^\/+|\/+$/g, "").replace(/\/+/g, "/")`. -/
def normalizeFolder (folderPath : String) : String :=
  String.mk (collapseSlashesAux false (stripEdgeSlashes (jsTrim folderPath)).toList)

/-- JS `s.split(".").pop() || ""`: the text after the last dot, the whole
string when there is no dot. -/
def jsSplitPop (s : String) : String :=
  String.mk ((s.toList.reverse.takeWhile (fun c => c != '.')).reverse)

/-- The `hasExtension` test of the handler on a trimmed custom key. -/
def hasExtensionFlag (t : String) : Bool :=
  let ext := jsSplitPop t
  t.toList.contains '.' && decide (0 < ext.length) && decide (ext.length < t.length)

/-- Destination key computation of the upload handler (lines building
`filename` from `customKey`, `folderPath` and the file name). -/
def computeFilename (customKey : Option String) (folderPath fileName : String) : String :=
  let folderPre :=
    let nf := normalizeFolder folderPath
    if nf = "" then "" else nf ++ "/"
  let fileExtension := jsSplitPop fileName
  match customKey with
  | some ck =>
    if ck ≠ "" ∧ jsTrim ck ≠ "" then
      let t := jsTrim ck
      if t.toList.contains '/' then t
      else if ¬ hasExtensionFlag t ∧ fileExtension ≠ "" then
        folderPre ++ t ++ "." ++ fileExtension
      else folderPre ++ t
    else folderPre ++ fileName
  | none => folderPre ++ fileName

/-- The `POST /api/upload` handler: auth check, bucket check, file presence
check, key computation, then an unconditional `bucket.put`. Returns the
status and the resulting bucket contents. -/
def uploadHandlerModel (r : UploadRequest) (bucket : String → Option RObject) :
    Nat × (String → Option RObject) :=
  if !r.authenticated then (401, bucket)
  else if !r.bucketConfigured then (500, bucket)
  else
    match r.file with
    | none => (400, bucket)
    | some f =>
      let filename := computeFilename r.customKey (r.folderPath.getD "") f.name
      (200, fun k => if k = filename then some ⟨f.content, f.ctype⟩ else bucket k)

/-! Section: concrete inputs used by claim theorems and witnesses -/

/-- An unauthenticated abort request with valid parameters. -/
def unauthAbortReq : AbortRequest :=
  { authenticated := false, bucketConfigured := true, action := some "abort",
    uploadId := some "upload-123", key := some "photos/cat.jpg" }

/-- A failed create: HTTP failure, response body without `uploadId`. -/
def failedCreate : CreateOutcome := { ok := false, bodyUploadId := none }

/-- An upload-part request carrying all three parameters both as query
parameters and as form-data body fields, with differing values. -/
def bothEncodingsReq : UploadPartRequest :=
  { authenticated := true, bucketConfigured := true, action := some "upload-part",
    queryUploadId := some "u1", queryPartNumber := some "1", queryKey := some "k1",
    contentTypeHeader := "multipart/form-data; boundary=xyz",
    formUploadId := some "u2", formPartNumber := some "2", formKey := some "k2",
    hasBody := true }

/-- An upload-part request whose `partNumber` is the non-integer string
`"2.5"`. -/
def fractionalPartNumberReq : UploadPartRequest :=
  { authenticated := true, bucketConfigured := true, action := some "upload-part",
    queryUploadId := some "u1", queryPartNumber := some "2.5", queryKey := some "k1",
    contentTypeHeader := "", formUploadId := none, formPartNumber := none,
    formKey := none, hasBody := true }

/-- An upload-part request whose `partNumber` is `"0"`. -/
def zeroPartNumberReq : UploadPartRequest :=
  { authenticated := true, bucketConfigured := true, action := some "upload-part",
    queryUploadId := some "u1", queryPartNumber := some "0", queryKey := some "k1",
    contentTypeHeader := "", formUploadId := none, formPartNumber := none,
    formKey := none, hasBody := true }

/-- The extraction described by the spec's words — accept either encoding and
prefer body fields when both are present — for comparison with the source's
`extractUploadPartParams`. -/
def extractPreferBodySpec (r : UploadPartRequest) :
    Option String × Option String × Option String :=
  (jsOr r.formUploadId r.queryUploadId, jsOr r.formPartNumber r.queryPartNumber,
   jsOr r.formKey r.queryKey)

/-- A simple-upload request writing (after key computation) to `photo.jpg`. -/
def overwriteReq : UploadRequest :=
  { authenticated := true, bucketConfigured := true,
    file := some ⟨"cat.jpg", "NEWDATA", "image/jpeg"⟩,
    customKey := some "photo", folderPath := none }

/-- A bucket that already holds an object under `photo.jpg`. -/
def bucketWithExisting : String → Option RObject :=
  fun k => if k = "photo.jpg" then some ⟨"OLDDATA", "image/png"⟩ else none

/-! Section: lemmas about the chunk plan -/

lemma chunkSize_pos : 0 < CHUNK_SIZE := by decide

lemma totalParts_le_mul (size : Nat) : size ≤ CHUNK_SIZE * totalParts size := by
  simp only [totalParts, CHUNK_SIZE]
  omega

lemma mul_pred_lt_totalParts (size : Nat) (hpos : 0 < size) :
    CHUNK_SIZE * (totalParts size - 1) < size := by
  simp only [totalParts, CHUNK_SIZE] at *
  omega

lemma totalParts_pos (size : Nat) (h : CHUNK_SIZE ≤ size) : 0 < totalParts size := by
  simp only [totalParts, CHUNK_SIZE] at *
  omega

/-- A non-final part covers a full chunk. -/
lemma partLen_nonfinal (size i : Nat) (hpos : 0 < size) (hi : i + 1 < totalParts size) :
    partLen size i = CHUNK_SIZE := by
  simp only [partLen, partEnd, partStart, totalParts, CHUNK_SIZE] at *
  omega

/-- The final part covers the remainder. -/
lemma partLen_final (size : Nat) (hpos : 0 < size) :
    partLen size (totalParts size - 1) = size - CHUNK_SIZE * (totalParts size - 1) := by
  simp only [partLen, partEnd, partStart, totalParts, CHUNK_SIZE] at *
  omega

lemma sum_map_const_chunk (n : Nat) :
    ((List.range n).map (fun _ => CHUNK_SIZE)).sum = n * CHUNK_SIZE := by
  induction n with
  | zero => simp
  | succ m ih =>
    rw [List.range_succ, List.map_append, List.sum_append, ih]
    simp [Nat.succ_mul]

/-- The part lengths sum to the file size. -/
lemma partLens_sum (size : Nat) (h : CHUNK_SIZE ≤ size) :
    (partLens size).sum = size := by
  have hpos : 0 < size := lt_of_lt_of_le chunkSize_pos h
  have hp := totalParts_pos size h
  obtain ⟨m, hm⟩ : ∃ m, totalParts size = m + 1 := ⟨totalParts size - 1, by omega⟩
  unfold partLens
  rw [hm, List.range_succ, List.map_append, List.sum_append]
  have hconst : (List.range m).map (partLen size) = (List.range m).map (fun _ => CHUNK_SIZE) := by
    apply List.map_congr_left
    intro i hi
    rw [List.mem_range] at hi
    exact partLen_nonfinal size i hpos (by omega)
  rw [hconst, sum_map_const_chunk]
  have hlast : partLen size m = size - CHUNK_SIZE * m := by
    have := partLen_final size hpos
    rw [hm] at this
    simpa using this
  have h1 := mul_pred_lt_totalParts size hpos
  rw [hm] at h1
  simp only [Nat.add_sub_cancel] at h1
  simp only [List.map_cons, List.map_nil, List.sum_cons, List.sum_nil, hlast]
  simp only [CHUNK_SIZE] at *
  omega

/-! Section: lemmas about the retry loop -/

lemma runPartLoop_succ (o : Nat → AttemptOutcome) (r a : Nat) (s : List Nat) :
    runPartLoop o (r + 1) a s =
      (match o a with
       | .thrown =>
         if r = 0 then ⟨false, a + 1, s⟩
         else runPartLoop o r (a + 1) (s ++ [1000 * (4 - r)])
       | .status c =>
         if 200 ≤ c ∧ c < 300 then ⟨true, a + 1, s⟩
         else if c = 413 then
           (if r = 0 then ⟨false, a + 1, s⟩
            else runPartLoop o r (a + 1) (s ++ [1000 * (4 - r)]))
         else if c ≠ 408 ∧ c ≠ 429 ∧ c < 500 then
           (if r = 0 then ⟨false, a + 1, s⟩
            else runPartLoop o r (a + 1) (s ++ [1000 * (4 - r)]))
         else
           (if r = 0 then ⟨false, a + 1, s⟩
            else runPartLoop o r (a + 1) (s ++ [1000 * (4 - r)]))) := by
  rfl

/-- A successful fetch ends the loop. -/
lemma runPartLoop_ok (o : Nat → AttemptOutcome) (r a : Nat) (s : List Nat) (c : Nat)
    (h : o a = .status c) (hok : 200 ≤ c ∧ c < 300) :
    runPartLoop o (r + 1) a s = ⟨true, a + 1, s⟩ := by
  rw [runPartLoop_succ, h]
  simp [hok]

/-- Any non-ok fetch outcome (exception, 413, terminal 4xx, or retryable
status alike) decrements `retries` and, when retries remain, sleeps and
loops. -/
lemma runPartLoop_nonOk_step (o : Nat → AttemptOutcome) (r a : Nat) (s : List Nat)
    (h : ∀ c, o a = .status c → ¬(200 ≤ c ∧ c < 300)) (hr : r ≠ 0) :
    runPartLoop o (r + 1) a s = runPartLoop o r (a + 1) (s ++ [1000 * (4 - r)]) := by
  rw [runPartLoop_succ]
  rcases hoa : o a with _ | c
  · simp [hr]
  · have hnok := h c hoa
    simp only [hnok, if_false]
    split_ifs <;> rfl

/-- Any non-ok fetch outcome on the last permitted attempt fails the part. -/
lemma runPartLoop_nonOk_last (o : Nat → AttemptOutcome) (a : Nat) (s : List Nat)
    (h : ∀ c, o a = .status c → ¬(200 ≤ c ∧ c < 300)) :
    runPartLoop o (0 + 1) a s = ⟨false, a + 1, s⟩ := by
  rw [runPartLoop_succ]
  rcases hoa : o a with _ | c
  · simp
  · have hnok := h c hoa
    simp only [hnok, if_false]
    split_ifs <;> rfl

/-- Exhaustive shape of a full three-attempt part loop. -/
lemma partLoop_cases (o : Nat → AttemptOutcome) :
    runPartLoop o 3 0 [] = ⟨true, 1, []⟩ ∨
    runPartLoop o 3 0 [] = ⟨true, 2, [2000]⟩ ∨
    runPartLoop o 3 0 [] = ⟨true, 3, [2000, 3000]⟩ ∨
    runPartLoop o 3 0 [] = ⟨false, 3, [2000, 3000]⟩ := by
  have e3 : (3 : Nat) = 2 + 1 := rfl
  by_cases h0 : ∃ c, o 0 = .status c ∧ 200 ≤ c ∧ c < 300
  · obtain ⟨c, hc, hok⟩ := h0
    left
    rw [e3, runPartLoop_ok o 2 0 [] c hc hok]
  · push_neg at h0
    have step0 : runPartLoop o 3 0 [] = runPartLoop o 2 1 [2000] := by
      rw [e3, runPartLoop_nonOk_step o 2 0 [] (fun c hc => by have := h0 c hc; omega) (by omega)]
      norm_num
    by_cases h1 : ∃ c, o 1 = .status c ∧ 200 ≤ c ∧ c < 300
    · obtain ⟨c, hc, hok⟩ := h1
      right; left
      rw [step0, show (2 : Nat) = 1 + 1 from rfl, runPartLoop_ok o 1 1 [2000] c hc hok]
    · push_neg at h1
      have step1 : runPartLoop o 2 1 [2000] = runPartLoop o 1 2 [2000, 3000] := by
        rw [show (2 : Nat) = 1 + 1 from rfl,
          runPartLoop_nonOk_step o 1 1 [2000] (fun c hc => by have := h1 c hc; omega) (by omega)]
        norm_num
      by_cases h2 : ∃ c, o 2 = .status c ∧ 200 ≤ c ∧ c < 300
      · obtain ⟨c, hc, hok⟩ := h2
        right; right; left
        rw [step0, step1, show (1 : Nat) = 0 + 1 from rfl,
          runPartLoop_ok o 0 2 [2000, 3000] c hc hok]
      · push_neg at h2
        right; right; right
        rw [step0, step1, runPartLoop_nonOk_last o 2 [2000, 3000]
          (fun c hc => by have := h2 c hc; omega)]

/-- Shape facts about any part loop: at most three fetches, the backoff
waits are the prefix `[2000, 3000]` determined by the attempt count, and a
failed loop used all three attempts. -/
lemma partLoop_shape (o : Nat → AttemptOutcome) :
    (runPartLoop o 3 0 []).attempts ≤ 3 ∧
    (runPartLoop o 3 0 []).sleeps =
      List.take ((runPartLoop o 3 0 []).attempts - 1) [2000, 3000] ∧
    ((runPartLoop o 3 0 []).succeeded = false → (runPartLoop o 3 0 []).attempts = 3) := by
  rcases partLoop_cases o with h | h | h | h <;> rw [h] <;> refine ⟨by simp, by simp, ?_⟩ <;> simp

lemma partLoop_attempts_pos (o : Nat → AttemptOutcome) :
    0 < (runPartLoop o 3 0 []).attempts := by
  rcases partLoop_cases o with h | h | h | h <;> rw [h] <;> simp

/-! Section: lemmas about the phase-2 loop -/

/-- If some part exhausts its retries (all earlier parts succeeding), the
phase-2 loop produces no parts list: the whole upload fails. -/
lemma runUploadPartsFrom_none (outcome : Nat → Nat → AttemptOutcome) (etagOf : Nat → String)
    (sid : String) :
    ∀ rem b t, t < rem →
      (∀ j, j < t → (runPartLoop (outcome (b + j)) 3 0 []).succeeded = true) →
      (runPartLoop (outcome (b + t)) 3 0 []).succeeded = false →
      (runUploadPartsFrom outcome etagOf sid b rem).2 = none := by
  intro rem
  induction rem with
  | zero => intro b t ht; omega
  | succ m ih =>
    intro b t ht hpre hfail
    rcases Nat.eq_zero_or_pos t with h0 | hpos
    · subst h0
      simp only [Nat.add_zero] at hfail
      simp only [runUploadPartsFrom, hfail]
      simp
    · obtain ⟨t', rfl⟩ : ∃ t', t = t' + 1 := ⟨t - 1, by omega⟩
      have hfirst : (runPartLoop (outcome b) 3 0 []).succeeded = true := by
        have := hpre 0 (by omega)
        simpa using this
      simp only [runUploadPartsFrom, hfirst, if_true]
      have hrest : (runUploadPartsFrom outcome etagOf sid (b + 1) m).2 = none := by
        apply ih (b + 1) t' (by omega)
        · intro j hj
          have := hpre (j + 1) (by omega)
          have he : b + (j + 1) = b + 1 + j := by omega
          rwa [he] at this
        · have he : b + (t' + 1) = b + 1 + t' := by omega
          rwa [he] at hfail
      simp [hrest]

/-- If every part loop succeeds, the phase-2 loop returns exactly the
ordered `partsData` list with the backend's etags. -/
lemma runUploadPartsFrom_all_ok (outcome : Nat → Nat → AttemptOutcome) (etagOf : Nat → String)
    (sid : String) :
    ∀ rem b, (∀ j, j < rem → (runPartLoop (outcome (b + j)) 3 0 []).succeeded = true) →
      (runUploadPartsFrom outcome etagOf sid b rem).2 =
        some ((List.range rem).map (fun j => ⟨b + j + 1, etagOf (b + j + 1)⟩)) := by
  intro rem
  induction rem with
  | zero => intro b _; simp [runUploadPartsFrom]
  | succ m ih =>
    intro b hok
    have hfirst : (runPartLoop (outcome b) 3 0 []).succeeded = true := by
      have := hok 0 (by omega)
      simpa using this
    simp only [runUploadPartsFrom, hfirst, if_true]
    have hrest := ih (b + 1) (fun j hj => by
      have := hok (j + 1) (by omega)
      have he : b + (j + 1) = b + 1 + j := by omega
      rwa [he] at this)
    simp only [hrest]
    rw [List.range_succ_eq_map, List.map_cons, List.map_map]
    congr 2
    apply List.map_congr_left
    intro j _
    simp only [Function.comp_apply, Nat.succ_eq_add_one]
    refine congrArg₂ PartData.mk (by omega) ?_
    congr 1
    omega

/-- Every fetch recorded by the phase-2 loop carries the session id it was
given. -/
lemma runUploadPartsFrom_trace_sid (outcome : Nat → Nat → AttemptOutcome) (etagOf : Nat → String)
    (sid : String) :
    ∀ rem b pr, pr ∈ (runUploadPartsFrom outcome etagOf sid b rem).1 → pr.2 = sid := by
  intro rem
  induction rem with
  | zero => intro b pr h; simp [runUploadPartsFrom] at h
  | succ m ih =>
    intro b pr h
    simp only [runUploadPartsFrom] at h
    by_cases hs : (runPartLoop (outcome b) 3 0 []).succeeded
    · simp only [hs, if_true, List.mem_append] at h
      rcases h with h | h
      · have := List.eq_of_mem_replicate h
        rw [this]
      · exact ih (b + 1) pr h
    · simp only [hs, if_false] at h
      have := List.eq_of_mem_replicate h
      rw [this]

/-- With at least one part to upload, the phase-2 loop issues at least one
part fetch. -/
lemma runUploadPartsFrom_trace_ne_nil (outcome : Nat → Nat → AttemptOutcome)
    (etagOf : Nat → String) (sid : String) (b m : Nat) :
    (runUploadPartsFrom outcome etagOf sid b (m + 1)).1 ≠ [] := by
  simp only [runUploadPartsFrom]
  have hpos := partLoop_attempts_pos (outcome b)
  by_cases hs : (runPartLoop (outcome b) 3 0 []).succeeded = true
  · rw [if_pos hs]
    intro hcon
    rcases List.append_eq_nil.mp hcon with ⟨h1, _⟩
    rw [List.replicate_eq_nil_iff] at h1
    omega
  · rw [if_neg hs]
    intro hcon
    rw [List.replicate_eq_nil_iff] at hcon
    omega

/-! Section: claim theorems -/

/-- C1: the claim says all four Coordinator operations return 401 to an
unauthenticated caller before any bucket call, in particular the abort
(`DELETE`) operation. The `DELETE` handler performs no authentication check:
an unauthenticated abort request with valid parameters reaches the bucket's
abort primitive and is answered 200, not 401. -/
theorem c1_abort_skips_auth :
    deleteHandlerModel unauthAbortReq true =
      ⟨200, [.resumeAbort "photos/cat.jpg" "upload-123"]⟩ ∧
    (deleteHandlerModel unauthAbortReq true).status ≠ 401 ∧
    (deleteHandlerModel unauthAbortReq true).calls ≠ [] ∧
    unauthAbortReq.authenticated = false := by
  refine ⟨rfl, by decide, by decide, rfl⟩

/-- C2: the claim says a part-upload response with a 4xx status other than
408/429 aborts the upload with no further fetch attempt for that part. In the
source the terminal-error `throw` sits inside the `try` block and is caught
by the loop's own `catch`, so a part answered 400 on every attempt is fetched
three times, with backoff sleeps of 2s and 3s, before the upload fails. -/
theorem c2_terminal_400_retried :
    runPartLoop (fun _ => .status 400) 3 0 [] =
      { succeeded := false, attempts := 3, sleeps := [2000, 3000] } := by
  rfl

/-- C7: the claim says the dispatch between the simple and multipart upload
paths terminates for every positive file size, routing sub-5-MiB files to the
single-shot path. For a 3 MiB file, `uploadFileSimple` forwards to
`uploadFileMultipart` (3 MiB > 1 MiB threshold) and `uploadFileMultipart`
forwards straight back (3 MiB < 5 MiB chunk size): the mutual hand-off never
settles, whatever iteration bound is allowed. -/
theorem c7_dispatch_diverges_3MiB :
    ∀ fuel p, dispatchRun fuel p 3145728 = none := by
  intro fuel
  induction fuel with
  | zero => intro p; rfl
  | succ m ih =>
    intro p
    cases p
    · have h : dispatchStep .simple 3145728 = some .multipart := by decide
      simp only [dispatchRun, h]
      exact ih .multipart
    · have h : dispatchStep .multipart 3145728 = some .simple := by decide
      simp only [dispatchRun, h]
      exact ih .simple

/-- C8: for every file at least one chunk large, the plan has
`ceil(size / CHUNK_SIZE)` parts (characterized by the two bounds), every
non-final part is exactly `CHUNK_SIZE` bytes, the part lengths sum to the
file size, and the in-loop short-part validation never fires. -/
theorem c8_chunk_plan (size : Nat) (h : CHUNK_SIZE ≤ size) :
    CHUNK_SIZE * (totalParts size - 1) < size ∧
    size ≤ CHUNK_SIZE * totalParts size ∧
    (∀ i, i + 1 < totalParts size → partLen size i = CHUNK_SIZE) ∧
    (partLens size).sum = size ∧
    planValidationFires size = false := by
  have hpos : 0 < size := lt_of_lt_of_le chunkSize_pos h
  refine ⟨mul_pred_lt_totalParts size hpos, totalParts_le_mul size,
    fun i hi => partLen_nonfinal size i hpos hi, partLens_sum size h, ?_⟩
  unfold planValidationFires
  rw [List.any_eq_false]
  intro i hi
  rw [List.mem_range] at hi
  by_cases hc : i + 1 < totalParts size
  · have hp := partLen_nonfinal size i hpos hc
    simp [hp]
  · have he : i + 1 = totalParts size := by omega
    simp [he]

/-- Witness for C8 at a concrete 12 MiB file. -/
theorem c8_chunk_plan_witness :
    CHUNK_SIZE ≤ 12582912 ∧ (partLens 12582912).sum = 12582912 ∧
    planValidationFires 12582912 = false := by
  have h := c8_chunk_plan 12582912 (by decide)
  exact ⟨by decide, h.2.2.2.1, h.2.2.2.2⟩

/-- C3 counterexample: with a failed create (no `uploadId` in the body), a
12 MiB upload still issues phase-2 upload-part fetches — three attempts for
part 1, each carrying the uploadId string `"undefined"` — contradicting the
claim that no phase-2 calls are issued after a failed create. -/
theorem c3_counterexample :
    multipartPartFetches 12582912 failedCreate (fun _ _ => .status 400)
      (fun _ => "") =
      [(1, "undefined"), (1, "undefined"), (1, "undefined")] ∧
    multipartPartFetches 12582912 failedCreate (fun _ _ => .status 400)
      (fun _ => "") ≠ [] := by
  exact ⟨rfl, by decide⟩

/-- C3 (amended): the Planner never retries create (exactly one create call),
but it does not check the create response either: when the response body
carries no `uploadId`, phase-2 upload-part fetches are still issued — at
least one, all with the uploadId parameter `"undefined"`. -/
theorem c3_amended (size : Nat) (c : CreateOutcome)
    (outcome : Nat → Nat → AttemptOutcome) (etagOf : Nat → String)
    (hsz : CHUNK_SIZE ≤ size) (hc : c.bodyUploadId = none) :
    multipartCreateCalls size = 1 ∧
    multipartPartFetches size c outcome etagOf ≠ [] ∧
    ∀ pr ∈ multipartPartFetches size c outcome etagOf, pr.2 = "undefined" := by
  have hnotlt : ¬ size < CHUNK_SIZE := by omega
  obtain ⟨m, hm⟩ : ∃ m, totalParts size = m + 1 :=
    ⟨totalParts size - 1, by have := totalParts_pos size hsz; omega⟩
  have h1 : multipartCreateCalls size = 1 := by
    unfold multipartCreateCalls
    rw [if_neg hnotlt]
  have h2 : multipartPartFetches size c outcome etagOf =
      (runUploadPartsFrom outcome etagOf (uploadIdParam c.bodyUploadId) 0
        (totalParts size)).1 := by
    unfold multipartPartFetches runUploadParts
    rw [if_neg hnotlt]
  rw [hc] at h2
  refine ⟨h1, ?_, ?_⟩
  · rw [h2, hm]
    exact runUploadPartsFrom_trace_ne_nil outcome etagOf (uploadIdParam none) 0 m
  · intro pr hpr
    rw [h2] at hpr
    exact runUploadPartsFrom_trace_sid outcome etagOf (uploadIdParam none)
      (totalParts size) 0 pr hpr

/-- Witness for C3 (amended) at a concrete 12 MiB upload. -/
theorem c3_amended_witness :
    CHUNK_SIZE ≤ 12582912 ∧ failedCreate.bodyUploadId = none ∧
    multipartCreateCalls 12582912 = 1 := by
  refine ⟨by decide, rfl,
    (c3_amended 12582912 failedCreate (fun _ _ => .status 500) (fun _ => "e")
      (by decide) rfl).1⟩

/-- C6 counterexample: under repeated 503 responses the sleeps between the
three attempts are 2000 ms and 3000 ms, not the claimed 1000 ms and
2000 ms. -/
theorem c6_counterexample :
    (runPartLoop (fun _ => .status 503) 3 0 []).sleeps = [2000, 3000] ∧
    [2000, 3000] ≠ ([1000, 2000] : List Nat) := by
  exact ⟨rfl, by decide⟩

/-- C6 (amended): every part gets at most 3 fetch attempts; a retryable
failure is followed by a backoff wait of 2s before the second attempt and 3s
before the third (the sleeps are always the matching prefix of
`[2000, 3000]`); a failed part loop used all three attempts; and a part
exhausting its attempts (all earlier parts succeeding) makes the whole
phase-2 run fail. -/
theorem c6_amended (outcome : Nat → Nat → AttemptOutcome) (etagOf : Nat → String)
    (sid : String) (n i : Nat) (hin : i < n)
    (hpre : ∀ j, j < i → (runPartLoop (outcome j) 3 0 []).succeeded = true)
    (hfail : (runPartLoop (outcome i) 3 0 []).succeeded = false) :
    (∀ o : Nat → AttemptOutcome,
      (runPartLoop o 3 0 []).attempts ≤ 3 ∧
      (runPartLoop o 3 0 []).sleeps =
        List.take ((runPartLoop o 3 0 []).attempts - 1) [2000, 3000] ∧
      ((runPartLoop o 3 0 []).succeeded = false →
        (runPartLoop o 3 0 []).attempts = 3)) ∧
    (runUploadParts outcome etagOf sid n).2 = none := by
  refine ⟨fun o => partLoop_shape o, ?_⟩
  unfold runUploadParts
  exact runUploadPartsFrom_none outcome etagOf sid n 0 i hin
    (by simpa using hpre) (by simpa using hfail)

/-- Witness for C6 (amended): one part, all attempts answered 503. -/
theorem c6_amended_witness :
    (0 : Nat) < 1 ∧
    (runUploadParts (fun _ _ => .status 503) (fun _ => "e") "sid" 1).2 = none := by
  refine ⟨by decide, (c6_amended (fun _ _ => .status 503) (fun _ => "e") "sid" 1 0
    (by decide) (fun j hj => absurd hj (Nat.not_lt_zero j)) (by decide)).2⟩

/-- C9: when every part loop succeeds, the parts list submitted at
completion is exactly `(1, e₁), …, (totalParts, eₙ)` in increasing
`partNumber` order — the part numbers are `1..n` with no gaps or duplicates
— and each etag is verbatim the backend's etag for that part. -/
theorem c9_completion_parts (outcome : Nat → Nat → AttemptOutcome)
    (etagOf : Nat → String) (sid : String) (n : Nat)
    (hok : ∀ i, i < n → (runPartLoop (outcome i) 3 0 []).succeeded = true) :
    (runUploadParts outcome etagOf sid n).2 =
      some ((List.range n).map (fun i => ⟨i + 1, etagOf (i + 1)⟩)) ∧
    (((runUploadParts outcome etagOf sid n).2.getD []).map PartData.partNumber =
      List.range' 1 n) ∧
    List.Pairwise (· < ·)
      (((runUploadParts outcome etagOf sid n).2.getD []).map PartData.partNumber) ∧
    (∀ k, k ∈ ((runUploadParts outcome etagOf sid n).2.getD []).map PartData.partNumber ↔
      1 ≤ k ∧ k ≤ n) ∧
    (∀ pd ∈ (runUploadParts outcome etagOf sid n).2.getD [],
      pd.etag = etagOf pd.partNumber) := by
  have hmain : (runUploadParts outcome etagOf sid n).2 =
      some ((List.range n).map (fun i => ⟨i + 1, etagOf (i + 1)⟩)) := by
    unfold runUploadParts
    have := runUploadPartsFrom_all_ok outcome etagOf sid n 0 (by simpa using hok)
    simpa using this
  have hpn : ((runUploadParts outcome etagOf sid n).2.getD []).map PartData.partNumber =
      List.range' 1 n := by
    rw [hmain, List.range'_eq_map_range]
    simp only [Option.getD_some, List.map_map]
    apply List.map_congr_left
    intro i _
    simp only [Function.comp_apply]
    omega
  refine ⟨hmain, hpn, ?_, ?_, ?_⟩
  · rw [hpn]
    exact List.pairwise_lt_range' ..
  · intro k
    rw [hpn, List.mem_range'_1]
    omega
  · intro pd hpd
    rw [hmain] at hpd
    simp only [Option.getD_some, List.mem_map, List.mem_range] at hpd
    obtain ⟨i, _, rfl⟩ := hpd
    rfl

/-- Witness for C9: two parts, every attempt succeeding. -/
theorem c9_completion_parts_witness :
    (runUploadParts (fun _ _ => .status 200) (fun _ => "e") "sid" 2).2 =
      some [⟨1, "e"⟩, ⟨2, "e"⟩] := by
  have h := c9_completion_parts (fun _ _ => .status 200) (fun _ => "e") "sid" 2
    (fun i _ => rfl)
  rw [h.1]
  rfl

/-- C4 counterexample: a request carrying `uploadId`, `partNumber` and `key`
both as query parameters and as form-data body fields is handled using the
query parameters' values — the bucket call uses part number 1 (query), not 2
(body) — contradicting the claim that the body fields are preferred. -/
theorem c4_counterexample :
    handleUploadPartModel bothEncodingsReq true =
      ⟨200, [.resumeUploadPart "k1" "u1" 1]⟩ ∧
    extractUploadPartParams bothEncodingsReq = (some "u1", some "1", some "k1") ∧
    extractUploadPartParams bothEncodingsReq ≠ extractPreferBodySpec bothEncodingsReq := by
  refine ⟨rfl, rfl, by decide⟩

/-- C4 (amended): the Coordinator accepts either encoding, but prefers the
query parameters: when all three are present in the query the body is never
read; body fields are consulted only for `multipart/form-data` bodies, each
parameter individually falling back query-first; for `application/json`
bodies the body fields are never read at all. -/
theorem c4_amended (r : UploadPartRequest) :
    (strFalsy r.queryUploadId = false → strFalsy r.queryPartNumber = false →
      strFalsy r.queryKey = false →
      extractUploadPartParams r = (r.queryUploadId, r.queryPartNumber, r.queryKey)) ∧
    (includesSub r.contentTypeHeader "application/json" = true →
      extractUploadPartParams r = (r.queryUploadId, r.queryPartNumber, r.queryKey)) ∧
    (includesSub r.contentTypeHeader "application/json" = false →
      includesSub r.contentTypeHeader "multipart/form-data" = true →
      extractUploadPartParams r =
        (jsOr r.queryUploadId r.formUploadId, jsOr r.queryPartNumber r.formPartNumber,
         jsOr r.queryKey r.formKey)) := by
  unfold extractUploadPartParams
  refine ⟨?_, ?_, ?_⟩
  · intro h1 h2 h3
    rw [if_neg (by simp [h1, h2, h3])]
  · intro hj
    by_cases hcond : (strFalsy r.queryUploadId || strFalsy r.queryPartNumber ||
        strFalsy r.queryKey) = true
    · rw [if_pos hcond, if_pos hj]
    · rw [if_neg hcond]
  · intro hjson hform
    by_cases hcond : (strFalsy r.queryUploadId || strFalsy r.queryPartNumber ||
        strFalsy r.queryKey) = true
    · rw [if_pos hcond, hjson]
      rw [if_neg Bool.false_ne_true, if_pos hform]
    · rw [if_neg hcond]
      have hs : strFalsy r.queryUploadId = false ∧ strFalsy r.queryPartNumber = false ∧
          strFalsy r.queryKey = false := by
        constructor
        · by_contra hne
          exact hcond (by simp [eq_true_of_ne_false hne])
        constructor
        · by_contra hne
          exact hcond (by simp [eq_true_of_ne_false hne])
        · by_contra hne
          exact hcond (by simp [eq_true_of_ne_false hne])
      unfold jsOr
      rw [hs.1, hs.2.1, hs.2.2]
      rfl

/-- Witness for C4 (amended) at the dual-encoded request. -/
theorem c4_amended_witness :
    extractUploadPartParams bothEncodingsReq = (some "u1", some "1", some "k1") := by
  exact (c4_amended bothEncodingsReq).1 rfl rfl rfl

/-- C5 counterexample: `partNumber = "2.5"` is not rejected: `parseInt`
truncates it to 2, the request is answered 200, and the bucket's uploadPart
primitive is invoked with part number 2 — contradicting the claim that
non-integer strings such as `"2.5"` get a 400 before any bucket call. -/
theorem c5_counterexample :
    handleUploadPartModel fractionalPartNumberReq true =
      ⟨200, [.resumeUploadPart "k1" "u1" 2]⟩ ∧
    (handleUploadPartModel fractionalPartNumberReq true).status ≠ 400 ∧
    (handleUploadPartModel fractionalPartNumberReq true).calls ≠ [] := by
  refine ⟨rfl, by decide, by decide⟩

/-- C5 (amended): the Coordinator rejects with 400, before any bucket call,
exactly those `partNumber` strings whose JavaScript `parseInt` value is NaN
or < 1; every bucket call it makes is an uploadPart with the `parseInt`
value of the extracted `partNumber`, an integer ≥ 1 — so strings with an
integer prefix, like `"2.5"`, are truncated and accepted. -/
theorem c5_amended (r : UploadPartRequest) (bOk : Bool) :
    (∀ call ∈ (handleUploadPartModel r bOk).calls, ∃ k u n,
        call = .resumeUploadPart k u n ∧ 1 ≤ n ∧
        jsParseInt ((extractUploadPartParams r).2.1.getD "") = some n) ∧
    ((jsParseInt ((extractUploadPartParams r).2.1.getD "") = none ∨
      (∃ n, jsParseInt ((extractUploadPartParams r).2.1.getD "") = some n ∧ n < 1)) →
      strFalsy (extractUploadPartParams r).1 = false →
      strFalsy (extractUploadPartParams r).2.1 = false →
      strFalsy (extractUploadPartParams r).2.2 = false →
      r.authenticated = true → r.bucketConfigured = true →
      r.action = some "upload-part" →
      handleUploadPartModel r bOk = ⟨400, []⟩) := by
  constructor
  · intro call hcall
    simp only [handleUploadPartModel] at hcall
    split at hcall
    · simp at hcall
    · split at hcall
      · simp at hcall
      · split at hcall
        · simp at hcall
        · split at hcall
          · simp at hcall
          · split at hcall
            · simp at hcall
            · rename_i n hn
              split at hcall
              · simp at hcall
              · split at hcall
                · simp at hcall
                · rename_i hnot1 _
                  split at hcall <;>
                  · simp only [HandlerResult.calls] at hcall
                    rw [List.mem_singleton] at hcall
                    exact ⟨_, _, n, hcall, by omega, hn⟩
  · intro hbad h5 h6 h7 hA hB hC
    simp only [handleUploadPartModel, hA, hB, hC, h5, h6, h7, Bool.not_true,
      Bool.false_eq_true, if_false, Bool.or_self, ne_eq, not_true_eq_false]
    rcases hbad with hnone | ⟨n, hn, hlt⟩
    · rw [hnone]
    · rw [hn]
      simp only [if_pos hlt]

/-- Witness for C5 (amended): `partNumber = "0"` is rejected with 400 and no
bucket call. -/
theorem c5_amended_witness :
    handleUploadPartModel zeroPartNumberReq true = ⟨400, []⟩ := by
  exact (c5_amended zeroPartNumberReq true).2
    (Or.inr ⟨0, rfl, by decide⟩) rfl rfl rfl rfl rfl rfl

/-- C10: the server-side simple-upload handler overwrites unconditionally:
for any authenticated, well-formed request it returns 200 (never 409),
stores the uploaded file under the computed key regardless of what the
bucket previously held there, leaves all other keys untouched, and its
status does not depend on the bucket's prior contents — the only
duplicate-key guard is the client-side advisory check, which the server
does not enforce. -/
theorem c10_put_overwrites (r : UploadRequest) (bucket : String → Option RObject)
    (f : UFile) (hauth : r.authenticated = true) (hbucket : r.bucketConfigured = true)
    (hfile : r.file = some f) :
    (uploadHandlerModel r bucket).1 = 200 ∧
    (uploadHandlerModel r bucket).1 ≠ 409 ∧
    (uploadHandlerModel r bucket).2
        (computeFilename r.customKey (r.folderPath.getD "") f.name) =
      some ⟨f.content, f.ctype⟩ ∧
    (∀ k, k ≠ computeFilename r.customKey (r.folderPath.getD "") f.name →
      (uploadHandlerModel r bucket).2 k = bucket k) ∧
    (∀ bucket2 : String → Option RObject,
      (uploadHandlerModel r bucket).1 = (uploadHandlerModel r bucket2).1) := by
  have hmodel : ∀ b : String → Option RObject, uploadHandlerModel r b =
      (200, fun k =>
        if k = computeFilename r.customKey (r.folderPath.getD "") f.name
        then some ⟨f.content, f.ctype⟩ else b k) := by
    intro b
    unfold uploadHandlerModel
    rw [hauth, hbucket, hfile]
    rfl
  refine ⟨by rw [hmodel bucket], by rw [hmodel bucket]; simp, ?_, ?_, ?_⟩
  · rw [hmodel bucket]
    simp
  · intro k hk
    rw [hmodel bucket]
    simp [hk]
  · intro bucket2
    rw [hmodel bucket, hmodel bucket2]

/-- Witness for C10: uploading over a bucket that already holds an object
under `photo.jpg` succeeds and replaces it. -/
theorem c10_put_overwrites_witness :
    bucketWithExisting "photo.jpg" = some ⟨"OLDDATA", "image/png"⟩ ∧
    (uploadHandlerModel overwriteReq bucketWithExisting).1 = 200 ∧
    (uploadHandlerModel overwriteReq bucketWithExisting).2 "photo.jpg" =
      some ⟨"NEWDATA", "image/jpeg"⟩ := by
  have h := c10_put_overwrites overwriteReq bucketWithExisting
    ⟨"cat.jpg", "NEWDATA", "image/jpeg"⟩ rfl rfl rfl
  exact ⟨rfl, h.1, h.2.2.1⟩

end WebflowStorage
